import Mathlib

/-!
Verification of the transaction-package construction engine of the
accelerate-tx-flavors repository (src/rbf.rs, src/cpfp.rs, src/p2a.rs).

Modelling conventions, stated once:

* Amounts.  The source computes send amounts in BTC as f64 values obtained
  from satoshi integers (bitcoin::Amount) via to_btc, and converts back with
  Amount::from_btc, which rejects negative values and values that are not a
  whole number of satoshis.  We embed the BTC layer as exact rationals: every
  value that flows through the demos is an exact multiple of 1e-8, where f64
  arithmetic and the exact arithmetic agree.  f64::round (ties away from
  zero) is embedded as rustRound on the rationals.
* Fees.  The demos hardcode fee constants in BTC (0.0001, 0.001, 0.01); the
  builders below take the fee in satoshis and convert with toBtc, exactly as
  the constant 0.0001 is the BTC view of 10_000 satoshis.
* Transactions.  TxIn/TxOut/Transaction mirror the bitcoin crate structures
  used in p2a.rs; the raw-transaction RPC path of rbf.rs and cpfp.rs is
  embedded by create_raw_transaction below.
* External node.  The version of drafts produced by the createrawtransaction
  RPC is assigned by the external node, not by code under src; it is
  modelled from the spec as the constant legacyVersion.
* Each run_demo builds its drafts from a chosen unspent output, destination
  scripts and fee constants; the builders below are those construction
  sections lambda-lifted over exactly the data they read.
-/

namespace AccelTx

/-- A transaction identifier (the 32-byte txid), kept as raw bytes. -/
structure Txid where
  bytes : List ℕ
deriving DecidableEq

/-- A script, as its raw bytes (script_pubkey or script_sig). -/
abbrev Script := List ℕ

/-- A reference to a transaction output: txid plus output index (OutPoint). -/
structure OutPoint where
  txid : Txid
  vout : ℕ
deriving DecidableEq

/-- A transaction input: bitcoin::TxIn as used in p2a.rs (witness omitted,
always empty before signing, like script_sig). -/
structure TxIn where
  previous_output : OutPoint
  script_sig : Script
  sequence : ℕ
deriving DecidableEq

/-- A transaction output: bitcoin::TxOut; value in satoshis (bitcoin::Amount). -/
structure TxOut where
  value : ℕ
  script_pubkey : Script
deriving DecidableEq

/-- bitcoin::Transaction as used in p2a.rs, and the shape of the drafts the
createrawtransaction RPC returns for rbf.rs and cpfp.rs. -/
structure Transaction where
  version : ℕ
  lock_time : ℕ
  input : List TxIn
  output : List TxOut
deriving DecidableEq

/-- A spendable output as returned by the listunspent query: the fields the
demos read (txid, vout, amount in satoshis). -/
structure SpendableOutput where
  txid : Txid
  vout : ℕ
  amount : ℕ
deriving DecidableEq

/-- bitcoincore_rpc::json::CreateRawTransactionInput: the per-input data the
demos hand to the createrawtransaction RPC. -/
structure CreateRawTransactionInput where
  txid : Txid
  vout : ℕ
  sequence : Option ℕ
deriving DecidableEq

/-- Satoshis per BTC: the conversion factor between a BTC value and the
minimal indivisible unit. -/
def satsPerBtc : ℚ := 100000000

/-- bitcoin::Amount::to_btc — a satoshi amount viewed as a BTC value. -/
def toBtc (sats : ℕ) : ℚ := (sats : ℚ) / satsPerBtc

/-- A signed satoshi count viewed as a BTC value; used to state how the
BTC-level differences computed by the demos normalise. -/
def intToBtc (z : ℤ) : ℚ := (z : ℚ) / satsPerBtc

/-- The error cases of bitcoin::Amount::from_btc on the values the demos
produce: a negative amount, or an amount that is not a whole number of
satoshis. -/
inductive AmountError
  | negative
  | tooPrecise
deriving DecidableEq

/-- bitcoin::Amount::from_btc — converts a BTC value back to satoshis,
rejecting negative values and values with a fractional satoshi part. -/
def amountFromBtc (x : ℚ) : Except AmountError ℕ :=
  if x < 0 then .error .negative
  else if (x * satsPerBtc).den ≠ 1 then .error .tooPrecise
  else .ok (x * satsPerBtc).num.toNat

/-- f64::round — round to the nearest integer, ties away from zero. -/
def rustRound (x : ℚ) : ℚ :=
  if 0 ≤ x then ((⌊x + 1 / 2⌋ : ℤ) : ℚ) else -((⌊-x + 1 / 2⌋ : ℤ) : ℚ)

/-- The rounding step the demos apply to BTC values:
(x * 100_000_000.0).round() / 100_000_000.0. -/
def roundToSat (x : ℚ) : ℚ := rustRound (x * satsPerBtc) / satsPerBtc

/-- The three sequence intents of the Sequence Policy component.  In src they
appear only as the literal sequence constants of the run_demo functions. -/
inductive SequenceIntent
  | Final
  | Replaceable
  | NonFinalSpendable
deriving DecidableEq

/-- The all-bits-set 32-bit sequence value. -/
def allBitsSet : ℕ := 2 ^ 32 - 1

/-- Modelled from the spec (section 4.2, Sequence Policy): the total lookup
from a sequence intent to its reserved 32-bit encoding — all-bits-set for
Final, all-bits-set minus 2 for Replaceable, all-bits-set minus 1 for
NonFinalSpendable.  The builders below use the literal constants of the
source; the theorems relate the two. -/
def resolve : SequenceIntent → ℕ
  | .Final => allBitsSet
  | .Replaceable => allBitsSet - 2
  | .NonFinalSpendable => allBitsSet - 1

/-- Modelled from the spec (section 3 and section 6): the transaction version
the external node assigns to drafts built through the createrawtransaction
RPC — the legacy, pre-anchor version.  This value is chosen by the external
node, not by code under src. -/
def legacyVersion : ℕ := 2

/-- Modelled from the spec (section 6): the external createrawtransaction
RPC, which assembles a draft in the standard wire shape from the given
inputs and outputs — empty unlock proof per input, the given sequence (or
the final sequence when none is given), zero locktime, legacy version. -/
def create_raw_transaction (inputs : List CreateRawTransactionInput)
    (outputs : List (Script × ℕ)) : Transaction :=
  { version := legacyVersion
    lock_time := 0
    input := inputs.map fun i =>
      { previous_output := ⟨i.txid, i.vout⟩
        script_sig := []
        sequence := i.sequence.getD allBitsSet }
    output := outputs.map fun o => { value := o.2, script_pubkey := o.1 } }

/-- rbf.rs lines 82-86: the single input of both replacement drafts, spending
the chosen unspent output with the RBF-enabled sequence 0xfffffffd. -/
def replacement_inputs (utxo : SpendableOutput) : List CreateRawTransactionInput :=
  [{ txid := utxo.txid, vout := utxo.vout, sequence := some 0xfffffffd }]

/-- rbf.rs run_demo, construction sections (lines 62-67, 82-97 and 122-130):
two successive single-output drafts spending the same output, the first
paying value minus fee1, the second value minus fee2.  Fees are taken in
satoshis and viewed in BTC exactly as the source constants are. -/
def build_replacement (utxo : SpendableOutput) (target_addr : Script)
    (fee1 fee2 : ℕ) : Except AmountError (Transaction × Transaction) :=
  let utxo_amount := toBtc utxo.amount
  let send_amount1 := utxo_amount - toBtc fee1
  let send_amount2 := utxo_amount - toBtc fee2
  let inputs := replacement_inputs utxo
  match amountFromBtc send_amount1 with
  | .error e => .error e
  | .ok amount1 =>
    let raw_tx1 := create_raw_transaction inputs [(target_addr, amount1)]
    match amountFromBtc send_amount2 with
    | .error e => .error e
    | .ok amount2 =>
      let raw_tx2 := create_raw_transaction inputs [(target_addr, amount2)]
      .ok (raw_tx1, raw_tx2)

/-- cpfp.rs lines 73-77: the single input of the parent draft, spending the
chosen unspent output with the final (no-RBF) sequence 0xffffffff. -/
def parent_inputs (utxo : SpendableOutput) : List CreateRawTransactionInput :=
  [{ txid := utxo.txid, vout := utxo.vout, sequence := some 0xffffffff }]

/-- cpfp.rs lines 120-124: the single input of the child draft, spending
output 0 of the broadcast parent with sequence 0xfffffffe. -/
def child_inputs (parent_txid : Txid) : List CreateRawTransactionInput :=
  [{ txid := parent_txid, vout := 0, sequence := some 0xfffffffe }]

/-- cpfp.rs run_demo, construction sections (lines 62-84 and 110-131): a
parent draft paying value minus parent_fee, and a child draft spending the
parent output 0 and paying the parent send amount minus child_fee, the
child send amount rounded to eight decimals as in the source. -/
def build_parent_child (utxo : SpendableOutput)
    (intermediate_addr final_addr : Script) (parent_fee child_fee : ℕ)
    (parent_txid : Txid) : Except AmountError (Transaction × Transaction) :=
  let utxo_amount := toBtc utxo.amount
  let parent_send_amount := utxo_amount - toBtc parent_fee
  match amountFromBtc parent_send_amount with
  | .error e => .error e
  | .ok parent_amount =>
    let parent_raw := create_raw_transaction (parent_inputs utxo)
      [(intermediate_addr, parent_amount)]
    let child_send_amount := roundToSat (parent_send_amount - toBtc child_fee)
    match amountFromBtc child_send_amount with
    | .error e => .error e
    | .ok child_amount =>
      let child_raw := create_raw_transaction (child_inputs parent_txid)
        [(final_addr, child_amount)]
      .ok (parent_raw, child_raw)

/-- bitcoin::opcodes::all::OP_PUSHNUM_1, the push-true opcode. -/
def OP_PUSHNUM_1 : ℕ := 0x51

/-- bitcoin::script::Builder, tracking the bytes pushed so far. -/
structure ScriptBuilder where
  bytes : Script
deriving DecidableEq

/-- Builder::new. -/
def ScriptBuilder.new : ScriptBuilder := ⟨[]⟩

/-- Builder::push_opcode — appends the opcode byte. -/
def ScriptBuilder.push_opcode (b : ScriptBuilder) (op : ℕ) : ScriptBuilder :=
  ⟨b.bytes ++ [op]⟩

/-- Builder::push_slice for data shorter than 76 bytes — a direct push:
the length byte, then the data. -/
def ScriptBuilder.push_slice (b : ScriptBuilder) (data : List ℕ) : ScriptBuilder :=
  ⟨b.bytes ++ [data.length] ++ data⟩

/-- Builder::into_script. -/
def ScriptBuilder.into_script (b : ScriptBuilder) : Script := b.bytes

/-- p2a.rs line 68: the two tag bytes pushed into the anchor script. -/
def push_bytes : List ℕ := [0x4e, 0x73]

/-- p2a.rs lines 67-72: the P2A anchor script, OP_1 then a push of the two
tag bytes. -/
def p2a_script : Script :=
  ((ScriptBuilder.new.push_opcode OP_PUSHNUM_1).push_slice push_bytes).into_script

/-- p2a.rs lines 104-109: the input of the main draft, spending the chosen
unspent output with the final (no-RBF) sequence. -/
def p2a_tx_input (utxo : SpendableOutput) : TxIn :=
  { previous_output := ⟨utxo.txid, utxo.vout⟩
    script_sig := []
    sequence := 0xffffffff }

/-- p2a.rs lines 126-129: the ephemeral anchor output — zero value, carrying
the anchor script. -/
def anchor_output : TxOut := { value := 0, script_pubkey := p2a_script }

/-- p2a.rs lines 198-203: the first input of the spend draft, spending the
anchor output (the last output) of the broadcast main draft. -/
def anchor_tx_input (main_txid : Txid) (anchor_vout : ℕ) : TxIn :=
  { previous_output := ⟨main_txid, anchor_vout⟩
    script_sig := []
    sequence := 0xfffffffe }

/-- p2a.rs lines 205-210: the second input of the spend draft, spending the
caller-supplied fee-paying output. -/
def fee_tx_input (fee_utxo : SpendableOutput) : TxIn :=
  { previous_output := ⟨fee_utxo.txid, fee_utxo.vout⟩
    script_sig := []
    sequence := 0xfffffffe }

/-- p2a.rs lines 80-138: the main draft — a send output of value minus fee
minus the 0.001 BTC change buffer, a change output when the change amount is
positive, then the anchor output last; version 3, zero locktime. -/
def build_anchor_tx (utxo : SpendableOutput) (target_addr funding_addr : Script)
    (fee_sats : ℕ) : Except AmountError Transaction :=
  let utxo_amount := toBtc utxo.amount
  let fee_amount := toBtc fee_sats
  let send_amount := roundToSat (utxo_amount - fee_amount - 0.001)
  let change_amount := roundToSat (utxo_amount - send_amount - fee_amount)
  match amountFromBtc send_amount with
  | .error e => .error e
  | .ok send_sats =>
    let base := [({ value := send_sats, script_pubkey := target_addr } : TxOut)]
    match (if 0 < change_amount then
            (amountFromBtc change_amount).map fun c =>
              base ++ [{ value := c, script_pubkey := funding_addr }]
           else .ok base) with
    | .error e => .error e
    | .ok outs =>
      .ok { version := 3, lock_time := 0, input := [p2a_tx_input utxo],
            output := outs ++ [anchor_output] }

/-- p2a.rs lines 173-176 and 198-225: the spend draft — two inputs (the
anchor output of the main draft, then the fee-paying output), and one change
output exactly when the fee change exceeds the 0.001 BTC floor; version 3,
zero locktime. -/
def build_anchor_spend_tx (main_tx : Transaction) (main_txid : Txid)
    (fee_utxo : SpendableOutput) (funding_addr : Script) (high_fee_sats : ℕ) :
    Except AmountError Transaction :=
  let fee_utxo_amount := toBtc fee_utxo.amount
  let high_fee := toBtc high_fee_sats
  let fee_change := roundToSat (fee_utxo_amount - high_fee)
  match (if 0.001 < fee_change then
          (amountFromBtc fee_change).map fun c =>
            [({ value := c, script_pubkey := funding_addr } : TxOut)]
         else .ok ([] : List TxOut)) with
  | .error e => .error e
  | .ok outs =>
    .ok { version := 3, lock_time := 0,
          input := [anchor_tx_input main_txid (main_tx.output.length - 1),
                    fee_tx_input fee_utxo],
          output := outs }

/-- p2a.rs run_demo: the whole anchor-spend package — the main draft carrying
the anchor, then the draft spending its anchor output. -/
def build_anchor_spend (utxo : SpendableOutput) (target_addr funding_addr : Script)
    (fee_utxo : SpendableOutput) (main_fee_sats high_fee_sats : ℕ)
    (main_txid : Txid) : Except AmountError (Transaction × Transaction) :=
  match build_anchor_tx utxo target_addr funding_addr main_fee_sats with
  | .error e => .error e
  | .ok tx =>
    match build_anchor_spend_tx tx main_txid fee_utxo funding_addr high_fee_sats with
    | .error e => .error e
    | .ok spend_tx => .ok (tx, spend_tx)

/-- The dust floor of the spend draft, in satoshis: the 0.001 BTC bound of
p2a.rs line 213 below which no change output is added. -/
def dustFloor : ℕ := 100000

/-- Modelled from the spec (section 4.3): the two anchor-value settings the
configuration option anchor_value is required to offer. -/
inductive AnchorValueConfig
  | Zero
  | MinimalNonZero
deriving DecidableEq

/-- Modelled from the spec (section 4.3): the anchor output value each
setting selects — true zero, or the minimal non-zero unit of the ledger. -/
def anchorValueOf : AnchorValueConfig → ℕ
  | .Zero => 0
  | .MinimalNonZero => 1

/-- A 32-bit little-endian field of the wire encoding (section 6). -/
def u32le (n : ℕ) : List ℕ :=
  [n % 256, n / 256 % 256, n / 65536 % 256, n / 16777216 % 256]

/-- A 64-bit little-endian field of the wire encoding (section 6). -/
def u64le (n : ℕ) : List ℕ :=
  [n % 256, n / 256 % 256, n / 65536 % 256, n / 16777216 % 256,
   n / 4294967296 % 256, n / 1099511627776 % 256,
   n / 281474976710656 % 256, n / 72057594037927936 % 256]

/-- The compact-size length prefix of the wire encoding. -/
def compactSize (n : ℕ) : List ℕ :=
  if n < 253 then [n]
  else if n < 65536 then [253, n % 256, n / 256 % 256]
  else 254 :: u32le n

/-- Wire bytes of one input: previous-output reference, empty unlock proof
with its length prefix, sequence. -/
def serialize_input (i : TxIn) : List ℕ :=
  i.previous_output.txid.bytes ++ u32le i.previous_output.vout ++
    compactSize i.script_sig.length ++ i.script_sig ++ u32le i.sequence

/-- Wire bytes of one output: value, script with its length prefix. -/
def serialize_output (o : TxOut) : List ℕ :=
  u64le o.value ++ compactSize o.script_pubkey.length ++ o.script_pubkey

/-- bitcoin::consensus::encode::serialize as used by p2a.rs, restricted to
the pre-witness fields the drafts populate: version, input list, output
list, locktime (section 6 wire encoding). -/
def serialize (tx : Transaction) : List ℕ :=
  u32le tx.version ++ compactSize tx.input.length ++
    (tx.input.map serialize_input).flatten ++ compactSize tx.output.length ++
    (tx.output.map serialize_output).flatten ++ u32le tx.lock_time

/-- A concrete unspent-output identifier used to instantiate the theorems. -/
def demoTxid : Txid := ⟨List.replicate 32 0xaa⟩

/-- A concrete broadcast identifier for a parent draft. -/
def demoParentTxid : Txid := ⟨List.replicate 32 0xbb⟩

/-- A concrete broadcast identifier for an anchor-carrying main draft. -/
def demoMainTxid : Txid := ⟨List.replicate 32 0xcc⟩

/-- A concrete identifier for the fee-paying output of the spend draft. -/
def demoFeeTxid : Txid := ⟨List.replicate 32 0xdd⟩

/-- A concrete spendable output worth 100_000_000 minimal units (1 BTC). -/
def demoUtxo : SpendableOutput := ⟨demoTxid, 0, 100000000⟩

/-- A concrete fee-paying output worth 50_000_000 minimal units. -/
def demoFeeUtxo : SpendableOutput := ⟨demoFeeTxid, 1, 50000000⟩

/-- Concrete destination scripts. -/
def demoDest : Script := [0x00, 0x14, 0x11]

/-- Concrete intermediate destination for the parent draft. -/
def demoInter : Script := [0x00, 0x14, 0x22]

/-- Concrete final destination for the child draft. -/
def demoFinal : Script := [0x00, 0x14, 0x33]

/-- Concrete target destination for the anchor-carrying draft. -/
def demoTarget : Script := [0x00, 0x14, 0x44]

/-- Concrete funding (change) script. -/
def demoFunding : Script := [0x00, 0x14, 0x55]

/-- The main draft build_anchor_tx produces on the demo inputs. -/
def demoMainTx : Transaction :=
  { version := 3, lock_time := 0, input := [p2a_tx_input demoUtxo],
    output := [{ value := 99800000, script_pubkey := demoTarget },
               { value := 100000, script_pubkey := demoFunding }, anchor_output] }

/-- The spend draft build_anchor_spend_tx produces on the demo inputs. -/
def demoSpendTx : Transaction :=
  { version := 3, lock_time := 0,
    input := [anchor_tx_input demoMainTxid 2, fee_tx_input demoFeeUtxo],
    output := [{ value := 49000000, script_pubkey := demoFunding }] }

/-- The pair of drafts build_replacement produces on the demo inputs. -/
def demoRbfPair : Transaction × Transaction :=
  (create_raw_transaction (replacement_inputs demoUtxo) [(demoDest, 99990000)],
   create_raw_transaction (replacement_inputs demoUtxo) [(demoDest, 99000000)])

/-- The pair of drafts build_parent_child produces on the demo inputs. -/
def demoCpfpPair : Transaction × Transaction :=
  (create_raw_transaction (parent_inputs demoUtxo) [(demoInter, 99990000)],
   create_raw_transaction (child_inputs demoParentTxid) [(demoFinal, 98990000)])

theorem satsPerBtc_pos : (0 : ℚ) < satsPerBtc := by norm_num [satsPerBtc]

theorem satsPerBtc_ne_zero : satsPerBtc ≠ 0 := by norm_num [satsPerBtc]

theorem toBtc_eq_intToBtc (a : ℕ) : toBtc a = intToBtc a := by
  simp [toBtc, intToBtc]

theorem intToBtc_sub (y z : ℤ) : intToBtc y - intToBtc z = intToBtc (y - z) := by
  unfold intToBtc
  push_cast
  rw [sub_div]

theorem intToBtc_sub_toBtc (z : ℤ) (b : ℕ) :
    intToBtc z - toBtc b = intToBtc (z - b) := by
  rw [toBtc_eq_intToBtc, intToBtc_sub]

theorem toBtc_sub (a b : ℕ) : toBtc a - toBtc b = intToBtc ((a : ℤ) - b) := by
  rw [toBtc_eq_intToBtc, intToBtc_sub_toBtc]

theorem intToBtc_mul_sats (z : ℤ) : intToBtc z * satsPerBtc = (z : ℚ) := by
  unfold intToBtc
  rw [div_mul_cancel₀ _ satsPerBtc_ne_zero]

theorem intToBtc_neg_iff (z : ℤ) : intToBtc z < 0 ↔ z < 0 := by
  unfold intToBtc
  rw [div_lt_iff₀ satsPerBtc_pos]
  simp

theorem intToBtc_lt_intToBtc (y z : ℤ) : intToBtc y < intToBtc z ↔ y < z := by
  unfold intToBtc
  rw [div_lt_div_iff₀ satsPerBtc_pos satsPerBtc_pos]
  constructor
  · intro h
    exact_mod_cast lt_of_mul_lt_mul_right h (le_of_lt satsPerBtc_pos)
  · intro h
    exact mul_lt_mul_of_pos_right (by exact_mod_cast h) satsPerBtc_pos

theorem intToBtc_pos_iff (z : ℤ) : 0 < intToBtc z ↔ 0 < z := by
  have h0 : intToBtc 0 = 0 := by simp [intToBtc]
  rw [← h0, intToBtc_lt_intToBtc]

theorem amountFromBtc_intToBtc (z : ℤ) :
    amountFromBtc (intToBtc z) =
      if z < 0 then .error .negative else .ok z.toNat := by
  unfold amountFromBtc
  rw [intToBtc_mul_sats]
  by_cases h : z < 0
  · rw [if_pos ((intToBtc_neg_iff z).mpr h), if_pos h]
  · rw [if_neg (fun hc => h ((intToBtc_neg_iff z).mp hc)), if_neg h]
    simp

theorem floor_half_add_int (z : ℤ) : ⌊(z : ℚ) + 1 / 2⌋ = z := by
  rw [add_comm, Int.floor_add_int]
  norm_num

theorem rustRound_intCast (z : ℤ) : rustRound (z : ℚ) = (z : ℚ) := by
  unfold rustRound
  by_cases h : (0 : ℚ) ≤ (z : ℚ)
  · rw [if_pos h, floor_half_add_int]
  · rw [if_neg h]
    have hneg : -((z : ℚ)) = ((-z : ℤ) : ℚ) := by push_cast; ring
    rw [hneg, floor_half_add_int]
    push_cast
    ring

theorem roundToSat_intToBtc (z : ℤ) : roundToSat (intToBtc z) = intToBtc z := by
  unfold roundToSat
  rw [intToBtc_mul_sats, rustRound_intCast]
  rfl

theorem toNat_coe_sub (a b : ℕ) : ((a : ℤ) - b).toNat = a - b := by omega

theorem milli_btc_eq : (0.001 : ℚ) = intToBtc 100000 := by
  unfold intToBtc satsPerBtc
  norm_num

theorem build_replacement_eq (utxo : SpendableOutput) (t : Script) (f1 f2 : ℕ) :
    build_replacement utxo t f1 f2 =
      if (utxo.amount : ℤ) - f1 < 0 then .error .negative
      else if (utxo.amount : ℤ) - f2 < 0 then .error .negative
      else .ok
        (create_raw_transaction (replacement_inputs utxo)
          [(t, utxo.amount - f1)],
         create_raw_transaction (replacement_inputs utxo)
          [(t, utxo.amount - f2)]) := by
  unfold build_replacement
  simp only []
  rw [toBtc_sub, toBtc_sub, amountFromBtc_intToBtc, amountFromBtc_intToBtc]
  by_cases h1 : (utxo.amount : ℤ) - f1 < 0
  · rw [if_pos h1, if_pos h1]
  · rw [if_neg h1, if_neg h1]
    by_cases h2 : (utxo.amount : ℤ) - f2 < 0
    · rw [if_pos h2, if_pos h2]
    · rw [if_neg h2, if_neg h2, toNat_coe_sub, toNat_coe_sub]

theorem build_parent_child_eq (utxo : SpendableOutput) (ia fa : Script)
    (pf cf : ℕ) (ptxid : Txid) :
    build_parent_child utxo ia fa pf cf ptxid =
      if (utxo.amount : ℤ) - pf < 0 then .error .negative
      else if (utxo.amount : ℤ) - pf - cf < 0 then .error .negative
      else .ok
        (create_raw_transaction (parent_inputs utxo)
          [(ia, utxo.amount - pf)],
         create_raw_transaction (child_inputs ptxid)
          [(fa, utxo.amount - pf - cf)]) := by
  unfold build_parent_child
  simp only []
  rw [toBtc_sub, amountFromBtc_intToBtc]
  by_cases h1 : (utxo.amount : ℤ) - pf < 0
  · rw [if_pos h1, if_pos h1]
  · rw [if_neg h1, if_neg h1, intToBtc_sub_toBtc, roundToSat_intToBtc,
        amountFromBtc_intToBtc]
    by_cases h2 : (utxo.amount : ℤ) - pf - cf < 0
    · rw [if_pos h2, if_pos h2]
    · rw [if_neg h2, if_neg h2, toNat_coe_sub]
      have : ((utxo.amount : ℤ) - pf - cf).toNat = utxo.amount - pf - cf := by
        omega
      rw [this]

theorem build_anchor_tx_eq (utxo : SpendableOutput) (t f : Script) (fee_sats : ℕ) :
    build_anchor_tx utxo t f fee_sats =
      if (utxo.amount : ℤ) - fee_sats - 100000 < 0 then .error .negative
      else .ok
        { version := 3, lock_time := 0, input := [p2a_tx_input utxo],
          output := [{ value := ((utxo.amount : ℤ) - fee_sats - 100000).toNat,
                       script_pubkey := t },
                     { value := 100000, script_pubkey := f },
                     anchor_output] } := by
  unfold build_anchor_tx
  simp only []
  rw [milli_btc_eq, toBtc_sub, intToBtc_sub, roundToSat_intToBtc,
      amountFromBtc_intToBtc]
  by_cases h1 : (utxo.amount : ℤ) - fee_sats - 100000 < 0
  · rw [if_pos h1, if_pos h1]
  · rw [if_neg h1, if_neg h1]
    have hchg : toBtc utxo.amount - intToBtc ((utxo.amount : ℤ) - fee_sats - 100000)
        - toBtc fee_sats = intToBtc 100000 := by
      rw [toBtc_eq_intToBtc, intToBtc_sub, intToBtc_sub_toBtc]
      congr 1
      ring
    simp only []
    rw [hchg, roundToSat_intToBtc, if_pos ((intToBtc_pos_iff 100000).mpr (by norm_num)),
        amountFromBtc_intToBtc, if_neg (by norm_num)]
    rfl

theorem build_anchor_spend_tx_eq (main_tx : Transaction) (mtxid : Txid)
    (fee_utxo : SpendableOutput) (f : Script) (hf : ℕ) :
    build_anchor_spend_tx main_tx mtxid fee_utxo f hf =
      .ok { version := 3, lock_time := 0,
            input := [anchor_tx_input mtxid (main_tx.output.length - 1),
                      fee_tx_input fee_utxo],
            output :=
              if 100000 < (fee_utxo.amount : ℤ) - hf then
                [{ value := ((fee_utxo.amount : ℤ) - hf).toNat, script_pubkey := f }]
              else [] } := by
  unfold build_anchor_spend_tx
  simp only []
  rw [milli_btc_eq, toBtc_sub, roundToSat_intToBtc]
  by_cases h1 : 100000 < (fee_utxo.amount : ℤ) - hf
  · rw [if_pos ((intToBtc_lt_intToBtc _ _).mpr h1), if_pos h1,
        amountFromBtc_intToBtc, if_neg (by omega)]
    rfl
  · rw [if_neg (fun hc => h1 ((intToBtc_lt_intToBtc _ _).mp hc)), if_neg h1]

theorem build_anchor_spend_eq (utxo : SpendableOutput) (t f : Script)
    (fee_utxo : SpendableOutput) (mf hf : ℕ) (mtxid : Txid) :
    build_anchor_spend utxo t f fee_utxo mf hf mtxid =
      if (utxo.amount : ℤ) - mf - 100000 < 0 then .error .negative
      else .ok
        ({ version := 3, lock_time := 0, input := [p2a_tx_input utxo],
           output := [{ value := ((utxo.amount : ℤ) - mf - 100000).toNat,
                        script_pubkey := t },
                      { value := 100000, script_pubkey := f },
                      anchor_output] },
         { version := 3, lock_time := 0,
           input := [anchor_tx_input mtxid 2, fee_tx_input fee_utxo],
           output :=
             if 100000 < (fee_utxo.amount : ℤ) - hf then
               [{ value := ((fee_utxo.amount : ℤ) - hf).toNat, script_pubkey := f }]
             else [] }) := by
  unfold build_anchor_spend
  rw [build_anchor_tx_eq]
  by_cases h1 : (utxo.amount : ℤ) - mf - 100000 < 0
  · rw [if_pos h1, if_pos h1]
  · rw [if_neg h1, if_neg h1]
    simp only []
    rw [build_anchor_spend_tx_eq]
    rfl

/-- C1: for every spendable output and fee pair with both fees below the
output value, build_replacement produces exactly two drafts sharing the
identical single input reference (same txid and output index), each with a
single output paying the output value minus its respective fee, and every
input of both drafts carrying the Replaceable sequence encoding. -/
theorem build_replacement_correct (utxo : SpendableOutput) (t : Script)
    (f1 f2 : ℕ) (h1 : f1 < utxo.amount) (h2 : f2 < utxo.amount) :
    build_replacement utxo t f1 f2 =
      .ok ({ version := legacyVersion, lock_time := 0,
             input := [{ previous_output := ⟨utxo.txid, utxo.vout⟩,
                         script_sig := [],
                         sequence := resolve .Replaceable }],
             output := [{ value := utxo.amount - f1, script_pubkey := t }] },
           { version := legacyVersion, lock_time := 0,
             input := [{ previous_output := ⟨utxo.txid, utxo.vout⟩,
                         script_sig := [],
                         sequence := resolve .Replaceable }],
             output := [{ value := utxo.amount - f2, script_pubkey := t }] }) := by
  rw [build_replacement_eq, if_neg (by omega), if_neg (by omega)]
  rfl

/-- C1 witness: value 100_000_000 with fees 10_000 and 1_000_000 gives the
two conflicting drafts with outputs 99_990_000 and 99_000_000. -/
theorem build_replacement_correct_witness :
    build_replacement demoUtxo demoDest 10000 1000000 =
      .ok ({ version := legacyVersion, lock_time := 0,
             input := [{ previous_output := ⟨demoTxid, 0⟩,
                         script_sig := [],
                         sequence := resolve .Replaceable }],
             output := [{ value := 99990000, script_pubkey := demoDest }] },
           { version := legacyVersion, lock_time := 0,
             input := [{ previous_output := ⟨demoTxid, 0⟩,
                         script_sig := [],
                         sequence := resolve .Replaceable }],
             output := [{ value := 99000000, script_pubkey := demoDest }] }) :=
  build_replacement_correct demoUtxo demoDest 10000 1000000 (by decide) (by decide)

/-- C2: for every spendable output with parent_fee below the value and
child_fee below the remaining value, build_parent_child produces a parent
draft spending the output with Final sequence and a single output of value
minus parent_fee, and a child draft whose sole input references output 0 of
the parent with NonFinalSpendable sequence and whose single output pays the
parent output value minus child_fee. -/
theorem build_parent_child_correct (utxo : SpendableOutput) (ia fa : Script)
    (pf cf : ℕ) (ptxid : Txid) (h1 : pf < utxo.amount)
    (h2 : cf < utxo.amount - pf) :
    build_parent_child utxo ia fa pf cf ptxid =
      .ok ({ version := legacyVersion, lock_time := 0,
             input := [{ previous_output := ⟨utxo.txid, utxo.vout⟩,
                         script_sig := [],
                         sequence := resolve .Final }],
             output := [{ value := utxo.amount - pf, script_pubkey := ia }] },
           { version := legacyVersion, lock_time := 0,
             input := [{ previous_output := ⟨ptxid, 0⟩,
                         script_sig := [],
                         sequence := resolve .NonFinalSpendable }],
             output := [{ value := utxo.amount - pf - cf,
                          script_pubkey := fa }] }) := by
  rw [build_parent_child_eq, if_neg (by omega), if_neg (by omega)]
  rfl

/-- C2 witness: value 100_000_000, parent_fee 10_000, child_fee 1_000_000
gives parent output 99_990_000 (Final) and child output 98_990_000
(NonFinalSpendable) referencing the parent output 0. -/
theorem build_parent_child_correct_witness :
    build_parent_child demoUtxo demoInter demoFinal 10000 1000000 demoParentTxid =
      .ok ({ version := legacyVersion, lock_time := 0,
             input := [{ previous_output := ⟨demoTxid, 0⟩,
                         script_sig := [],
                         sequence := resolve .Final }],
             output := [{ value := 99990000, script_pubkey := demoInter }] },
           { version := legacyVersion, lock_time := 0,
             input := [{ previous_output := ⟨demoParentTxid, 0⟩,
                         script_sig := [],
                         sequence := resolve .NonFinalSpendable }],
             output := [{ value := 98990000, script_pubkey := demoFinal }] }) :=
  build_parent_child_correct demoUtxo demoInter demoFinal 10000 1000000
    demoParentTxid (by decide) (by decide)

/-- C4: the sequence-intent resolution is the total lookup sending Final to
0xffffffff, Replaceable to 0xfffffffd and NonFinalSpendable to 0xfffffffe,
and every input the builders construct carries exactly the encoding of its
intent. -/
theorem resolve_correct :
    resolve .Final = 0xffffffff ∧
    resolve .Replaceable = 0xfffffffd ∧
    resolve .NonFinalSpendable = 0xfffffffe ∧
    (∀ utxo, (replacement_inputs utxo).map CreateRawTransactionInput.sequence =
      [some (resolve .Replaceable)]) ∧
    (∀ utxo, (parent_inputs utxo).map CreateRawTransactionInput.sequence =
      [some (resolve .Final)]) ∧
    (∀ ptxid, (child_inputs ptxid).map CreateRawTransactionInput.sequence =
      [some (resolve .NonFinalSpendable)]) ∧
    (∀ utxo, (p2a_tx_input utxo).sequence = resolve .Final) ∧
    (∀ mtxid v, (anchor_tx_input mtxid v).sequence = resolve .NonFinalSpendable) ∧
    (∀ fu, (fee_tx_input fu).sequence = resolve .NonFinalSpendable) :=
  ⟨rfl, rfl, rfl, fun _ => rfl, fun _ => rfl, fun _ => rfl, fun _ => rfl,
   fun _ _ => rfl, fun _ => rfl⟩

/-- C5: the anchor script builder is a deterministic constant returning
exactly the four bytes push-true opcode, 0x02, 0x4e, 0x73. -/
theorem p2a_script_correct :
    p2a_script = [OP_PUSHNUM_1, 0x02, 0x4e, 0x73] ∧
    p2a_script = [0x51, 0x02, 0x4e, 0x73] ∧
    p2a_script.length = 4 :=
  ⟨rfl, rfl, rfl⟩

/-- C6 counterexample: build_replacement with fee equal to the full output
value does NOT fail — it succeeds and produces a draft whose single output
has value zero, refuting the claim that subtraction of a fee equal to the
total fails with a typed InsufficientFunds error. -/
theorem subtract_fee_boundary_counterexample :
    build_replacement demoUtxo demoDest 100000000 1000000 =
      .ok ({ version := legacyVersion, lock_time := 0,
             input := [{ previous_output := ⟨demoTxid, 0⟩,
                         script_sig := [],
                         sequence := 0xfffffffd }],
             output := [{ value := 0, script_pubkey := demoDest }] },
           { version := legacyVersion, lock_time := 0,
             input := [{ previous_output := ⟨demoTxid, 0⟩,
                         script_sig := [],
                         sequence := 0xfffffffd }],
             output := [{ value := 99000000, script_pubkey := demoDest }] }) := by
  rw [build_replacement_eq]
  rfl

/-- C6 amended: fee subtraction fails only when the fee strictly exceeds the
total (with the negative-amount conversion error — no typed
InsufficientFunds exists in the code); for every fee at most the total it
returns exactly total minus fee, so a fee equal to the output value yields
a zero-value output rather than an error. -/
theorem subtract_fee_behavior (total fee : ℕ) :
    amountFromBtc (toBtc total - toBtc fee) =
      if fee ≤ total then .ok (total - fee) else .error .negative := by
  rw [toBtc_sub, amountFromBtc_intToBtc]
  by_cases h : fee ≤ total
  · rw [if_neg (by omega), if_pos h, toNat_coe_sub]
  · rw [if_pos (by omega), if_neg h]

/-- C3: whenever build_anchor_spend succeeds, the main draft carries the
exact 4-byte anchor script on its last output, and the spend draft has
exactly two inputs — the anchor output of the main draft first, then the
caller-supplied fee output — with zero or one change output, present
exactly when the fee output value minus the spend fee exceeds the dust
floor. -/
theorem build_anchor_spend_correct (utxo : SpendableOutput) (t f : Script)
    (fee_utxo : SpendableOutput) (mf hf : ℕ) (mtxid : Txid)
    (tx spend : Transaction)
    (h : build_anchor_spend utxo t f fee_utxo mf hf mtxid = .ok (tx, spend)) :
    tx.output.getLast? = some anchor_output ∧
    anchor_output.script_pubkey = p2a_script ∧
    p2a_script.length = 4 ∧
    spend.input = [anchor_tx_input mtxid (tx.output.length - 1),
                   fee_tx_input fee_utxo] ∧
    spend.output.length ≤ 1 ∧
    (spend.output.length = 1 ↔ (dustFloor : ℤ) < (fee_utxo.amount : ℤ) - hf) := by
  rw [build_anchor_spend_eq] at h
  by_cases hc : (utxo.amount : ℤ) - mf - 100000 < 0
  · rw [if_pos hc] at h
    exact absurd h (by simp)
  · rw [if_neg hc] at h
    simp only [Except.ok.injEq, Prod.mk.injEq] at h
    obtain ⟨htx, hspend⟩ := h
    subst htx
    subst hspend
    have hdf : (dustFloor : ℤ) = 100000 := by norm_num [dustFloor]
    rw [hdf]
    refine ⟨rfl, rfl, rfl, rfl, ?_, ?_⟩
    · by_cases hd : (100000 : ℤ) < (fee_utxo.amount : ℤ) - hf
      · simp [hd]
      · simp [hd]
    · by_cases hd : (100000 : ℤ) < (fee_utxo.amount : ℤ) - hf
      · simp [hd]
      · simp [hd]

/-- C3 witness: the demo inputs give an anchor-carrying main draft and a
two-input spend draft with one change output above the dust floor. -/
theorem build_anchor_spend_correct_witness :
    demoMainTx.output.getLast? = some anchor_output ∧
    anchor_output.script_pubkey = p2a_script ∧
    p2a_script.length = 4 ∧
    demoSpendTx.input = [anchor_tx_input demoMainTxid (demoMainTx.output.length - 1),
                         fee_tx_input demoFeeUtxo] ∧
    demoSpendTx.output.length ≤ 1 ∧
    (demoSpendTx.output.length = 1 ↔
      (dustFloor : ℤ) < (demoFeeUtxo.amount : ℤ) - 1000000) :=
  build_anchor_spend_correct demoUtxo demoTarget demoFunding demoFeeUtxo
    100000 1000000 demoMainTxid demoMainTx demoSpendTx
    (by rw [build_anchor_spend_eq]; rfl)

/-- C7 counterexample: the code supports no anchor-value configuration — the
anchor output value is the hardcoded zero of p2a.rs line 127, so it cannot
equal the value selected by every configuration setting: for the
MinimalNonZero setting the equation fails. -/
theorem anchor_value_config_counterexample :
    build_anchor_spend demoUtxo demoTarget demoFunding demoFeeUtxo 100000 1000000
        demoMainTxid = .ok (demoMainTx, demoSpendTx) ∧
    demoMainTx.output.getLast? = some anchor_output ∧
    anchor_output.value = anchorValueOf .Zero ∧
    ¬ (∀ cfg : AnchorValueConfig, anchor_output.value = anchorValueOf cfg) := by
  refine ⟨by rw [build_anchor_spend_eq]; rfl, rfl, rfl, ?_⟩
  intro hall
  have h1 := hall .MinimalNonZero
  simp [anchor_output, anchorValueOf] at h1

/-- C7 amended: the anchor output value is not configurable — the builder
hardcodes the Zero (true ephemeral) setting, and every successful
anchor-spend build ends its main draft with an anchor output of value
exactly zero; the MinimalNonZero setting is not supported by the code. -/
theorem anchor_value_always_zero (utxo : SpendableOutput) (t f : Script)
    (fee_utxo : SpendableOutput) (mf hf : ℕ) (mtxid : Txid)
    (tx spend : Transaction)
    (h : build_anchor_spend utxo t f fee_utxo mf hf mtxid = .ok (tx, spend)) :
    tx.output.getLast? =
      some { value := anchorValueOf .Zero, script_pubkey := p2a_script } := by
  rw [build_anchor_spend_eq] at h
  by_cases hc : (utxo.amount : ℤ) - mf - 100000 < 0
  · rw [if_pos hc] at h
    exact absurd h (by simp)
  · rw [if_neg hc] at h
    simp only [Except.ok.injEq, Prod.mk.injEq] at h
    obtain ⟨htx, _⟩ := h
    subst htx
    rfl

/-- C7 amended witness: on the demo inputs the anchor output has value
zero. -/
theorem anchor_value_always_zero_witness :
    demoMainTx.output.getLast? =
      some { value := anchorValueOf .Zero, script_pubkey := p2a_script } :=
  anchor_value_always_zero demoUtxo demoTarget demoFunding demoFeeUtxo
    100000 1000000 demoMainTxid demoMainTx demoSpendTx
    (by rw [build_anchor_spend_eq]; rfl)

/-- C8: every draft built by build_replacement and build_parent_child has
the legacy version, and both drafts of build_anchor_spend have the
anchor-aware version 3. -/
theorem draft_versions :
    (∀ utxo t f1 f2 p, build_replacement utxo t f1 f2 = .ok p →
      p.1.version = legacyVersion ∧ p.2.version = legacyVersion) ∧
    (∀ utxo ia fa pf cf ptxid p, build_parent_child utxo ia fa pf cf ptxid = .ok p →
      p.1.version = legacyVersion ∧ p.2.version = legacyVersion) ∧
    (∀ utxo t f fu mf hf mtxid p, build_anchor_spend utxo t f fu mf hf mtxid = .ok p →
      p.1.version = 3 ∧ p.2.version = 3) := by
  refine ⟨?_, ?_, ?_⟩
  · intro utxo t f1 f2 p h
    rw [build_replacement_eq] at h
    split_ifs at h
    simp only [Except.ok.injEq] at h
    subst h
    exact ⟨rfl, rfl⟩
  · intro utxo ia fa pf cf ptxid p h
    rw [build_parent_child_eq] at h
    split_ifs at h
    simp only [Except.ok.injEq] at h
    subst h
    exact ⟨rfl, rfl⟩
  · intro utxo t f fu mf hf mtxid p h
    rw [build_anchor_spend_eq] at h
    split_ifs at h
    all_goals simp only [Except.ok.injEq] at h
    all_goals subst h
    all_goals exact ⟨rfl, rfl⟩

/-- C8 witness: the demo builds carry the legacy version on the RBF and
CPFP drafts and version 3 on both anchor drafts. -/
theorem draft_versions_witness :
    (demoRbfPair.1.version = legacyVersion ∧ demoRbfPair.2.version = legacyVersion) ∧
    (demoCpfpPair.1.version = legacyVersion ∧ demoCpfpPair.2.version = legacyVersion) ∧
    ((demoMainTx, demoSpendTx).1.version = 3 ∧ (demoMainTx, demoSpendTx).2.version = 3) :=
  ⟨draft_versions.1 demoUtxo demoDest 10000 1000000 demoRbfPair
      (by rw [build_replacement_eq]; rfl),
   draft_versions.2.1 demoUtxo demoInter demoFinal 10000 1000000 demoParentTxid
      demoCpfpPair (by rw [build_parent_child_eq]; rfl),
   draft_versions.2.2 demoUtxo demoTarget demoFunding demoFeeUtxo 100000 1000000
      demoMainTxid (demoMainTx, demoSpendTx) (by rw [build_anchor_spend_eq]; rfl)⟩

/-- C9: output values are whole numbers of the minimal unit — for every fee
at most the total, the BTC-level split rounds to exactly total minus fee
whole satoshis, the conversion back to a draft output value succeeds with
exactly that integer, and no fractional-unit value survives the
conversion. -/
theorem outputs_whole_units (total fee : ℕ) (h : fee ≤ total) :
    roundToSat (toBtc total - toBtc fee) = toBtc (total - fee) ∧
    amountFromBtc (toBtc total - toBtc fee) = .ok (total - fee) ∧
    amountFromBtc (roundToSat (toBtc total - toBtc fee)) = .ok (total - fee) ∧
    (toBtc (total - fee) * satsPerBtc).den = 1 := by
  have hsub : toBtc total - toBtc fee = intToBtc ((total : ℤ) - fee) := toBtc_sub _ _
  have heq : intToBtc ((total : ℤ) - fee) = toBtc (total - fee) := by
    rw [toBtc_eq_intToBtc]
    congr 1
    omega
  refine ⟨?_, ?_, ?_, ?_⟩
  · rw [hsub, roundToSat_intToBtc, heq]
  · rw [hsub, amountFromBtc_intToBtc, if_neg (by omega)]
    congr 1
    omega
  · rw [hsub, roundToSat_intToBtc, amountFromBtc_intToBtc, if_neg (by omega)]
    congr 1
    omega
  · rw [toBtc_eq_intToBtc, intToBtc_mul_sats]
    exact Rat.den_intCast _

/-- C9 witness: total 100_000_000 and fee 10_000 split to exactly
99_990_000 whole minimal units. -/
theorem outputs_whole_units_witness :
    roundToSat (toBtc 100000000 - toBtc 10000) = toBtc (100000000 - 10000) ∧
    amountFromBtc (toBtc 100000000 - toBtc 10000) = .ok (100000000 - 10000) ∧
    amountFromBtc (roundToSat (toBtc 100000000 - toBtc 10000)) =
      .ok (100000000 - 10000) ∧
    (toBtc (100000000 - 10000) * satsPerBtc).den = 1 :=
  outputs_whole_units 100000000 10000 (by norm_num)

/-- C10: every builder is deterministic in its arguments — two invocations
with identical argument values produce byte-identical serialized drafts.
The builders are pure functions of exactly the data the source construction
code reads; no external state enters the embedding because none is read by
the construction sections of the source. -/
theorem builders_deterministic (u u' : SpendableOutput) (t t' : Script)
    (f1 f1' f2 f2' : ℕ) (ia ia' fa fa' : Script) (pf pf' cf cf' : ℕ)
    (ptxid ptxid' : Txid) (fu fu' : SpendableOutput)
    (mfee mfee' hfee hfee' : ℕ) (mtxid mtxid' : Txid)
    (hu : u = u') (ht : t = t') (hf1 : f1 = f1') (hf2 : f2 = f2')
    (hia : ia = ia') (hfa : fa = fa') (hpf : pf = pf') (hcf : cf = cf')
    (hpt : ptxid = ptxid') (hfu : fu = fu') (hmfee : mfee = mfee')
    (hhfee : hfee = hfee') (hmt : mtxid = mtxid') :
    (build_replacement u t f1 f2).map (fun p => (serialize p.1, serialize p.2)) =
      (build_replacement u' t' f1' f2').map
        (fun p => (serialize p.1, serialize p.2)) ∧
    (build_parent_child u ia fa pf cf ptxid).map
        (fun p => (serialize p.1, serialize p.2)) =
      (build_parent_child u' ia' fa' pf' cf' ptxid').map
        (fun p => (serialize p.1, serialize p.2)) ∧
    (build_anchor_spend u t fa fu mfee hfee mtxid).map
        (fun p => (serialize p.1, serialize p.2)) =
      (build_anchor_spend u' t' fa' fu' mfee' hfee' mtxid').map
        (fun p => (serialize p.1, serialize p.2)) := by
  subst hu ht hf1 hf2 hia hfa hpf hcf hpt hfu hmfee hhfee hmt
  exact ⟨rfl, rfl, rfl⟩

/-- C10 witness: repeating each demo build gives byte-identical serialized
drafts. -/
theorem builders_deterministic_witness :
    (build_replacement demoUtxo demoDest 10000 1000000).map
        (fun p => (serialize p.1, serialize p.2)) =
      (build_replacement demoUtxo demoDest 10000 1000000).map
        (fun p => (serialize p.1, serialize p.2)) ∧
    (build_parent_child demoUtxo demoInter demoFinal 10000 1000000 demoParentTxid).map
        (fun p => (serialize p.1, serialize p.2)) =
      (build_parent_child demoUtxo demoInter demoFinal 10000 1000000 demoParentTxid).map
        (fun p => (serialize p.1, serialize p.2)) ∧
    (build_anchor_spend demoUtxo demoDest demoFinal demoFeeUtxo 100000 1000000
        demoMainTxid).map (fun p => (serialize p.1, serialize p.2)) =
      (build_anchor_spend demoUtxo demoDest demoFinal demoFeeUtxo 100000 1000000
        demoMainTxid).map (fun p => (serialize p.1, serialize p.2)) :=
  builders_deterministic demoUtxo demoUtxo demoDest demoDest 10000 10000
    1000000 1000000 demoInter demoInter demoFinal demoFinal 10000 10000
    1000000 1000000 demoParentTxid demoParentTxid demoFeeUtxo demoFeeUtxo
    100000 100000 1000000 1000000 demoMainTxid demoMainTxid
    rfl rfl rfl rfl rfl rfl rfl rfl rfl rfl rfl rfl rfl

end AccelTx
